import Mathlib

/-!
Verification of the Linux reactor in
`src/system/gd/os/linux_generic/reactor.cc` (AOSP Bluetooth module).

The C++ code is shallowly embedded: kernel objects (eventfd counters,
the epoll interest table) are explicit data, callbacks are abstract
closure identities, and every reactor operation becomes a pure function
on an explicit `ReactorState`.  Callback invocations and log emissions
performed by the dispatch loop are recorded in a trace.
-/

namespace ReactorModel

/-! ## Kernel constants (from `sys/epoll.h` and the anonymous namespace of reactor.cc) -/

/-- Bit for read readiness (`EPOLLIN = 0x001`). -/
def EPOLLIN : Nat := 0x001

/-- Bit for write readiness (`EPOLLOUT = 0x004`). -/
def EPOLLOUT : Nat := 0x004

/-- Bit for error condition (`EPOLLERR = 0x008`). -/
def EPOLLERR : Nat := 0x008

/-- Bit for hang-up (`EPOLLHUP = 0x010`). -/
def EPOLLHUP : Nat := 0x010

/-- Bit for peer hang-up (`EPOLLRDHUP = 0x2000`). -/
def EPOLLRDHUP : Nat := 0x2000

/-- Control-channel command bit: stop the reactor (`1 << 0`). -/
def kStopReactor : Nat := 1 <<< 0

/-- Control-channel command bit: wait for idle (`1 << 1`). -/
def kWaitForIdle : Nat := 1 <<< 1

/-! ## Wakeable Event (`Reactor::Event`, reactor.cc lines 45-84)

An `Event` owns an eventfd opened with `EFD_SEMAPHORE | EFD_NONBLOCK`:
the kernel object is a 64-bit counter, `eventfd_write` adds to it, and a
semaphore-mode `eventfd_read` decrements it by exactly one, failing
(with EAGAIN, since the fd is non-blocking) when the counter is zero. -/

/-- Kernel state of a semaphore-mode eventfd: just its counter. -/
structure EventFd where
  counter : Nat
deriving Repr, DecidableEq

namespace EventFd

/-- `Reactor::Event::Read`: one semaphore decrement; returns true on
success and false when the counter was zero, together with the new
kernel state. -/
def Read (e : EventFd) : Bool × EventFd :=
  if 0 < e.counter then (true, ⟨e.counter - 1⟩) else (false, e)

/-- `Reactor::Event::Notify`: `eventfd_write(fd, 1)` adds one to the counter. -/
def Notify (e : EventFd) : EventFd :=
  ⟨e.counter + 1⟩

/-- Loop of `Reactor::Event::Clear` on the counter: each successful
semaphore read decrements by one; the loop stops when a read fails,
i.e. when the counter has reached zero. -/
def clearLoop : Nat → Nat
  | 0 => 0
  | n + 1 => clearLoop n

/-- `Reactor::Event::Clear`: reads in a loop until a read fails, draining
the counter to zero. -/
def Clear (e : EventFd) : EventFd :=
  ⟨clearLoop e.counter⟩

/-- A sequence of `n` Notify calls. -/
def notifyN : Nat → EventFd → EventFd
  | 0, e => e
  | n + 1, e => notifyN n (Notify e)

end EventFd

/-! ## Reactable (`Reactor::Reactable`, reactor.cc lines 86-101) -/

/-- A `base::Closure` is modelled by an abstract identity; `none` is the
null closure (`is_null()` true). -/
abbrev Closure := Option Nat

/-- One registration record.  `fd` is the watched handle; the two
closures are fixed at construction; `is_executing` and `removed` are the
mutable flags guarded by the reactable's own mutex; `finished_promise`
records whether the one-shot completion promise has been allocated. -/
structure Reactable where
  fd : Nat
  on_read_ready : Closure
  on_write_ready : Closure
  is_executing : Bool
  removed : Bool
  finished_promise : Bool
deriving Repr, DecidableEq

/-! ## Kernel epoll interest table -/

/-- One entry of the epoll interest table: the watched fd, the event
mask, and the user-data pointer (`none` marks the control fd entry,
`some p` a reactable pointer). -/
structure EpollEntry where
  fd : Nat
  events : Nat
  dataPtr : Option Nat
deriving Repr, DecidableEq

/-! ## Reactor state (`Reactor`, reactor.cc lines 103-114 and header fields) -/

/-- The heap of live reactables, keyed by pointer identity. -/
abbrev Heap := List (Nat × Reactable)

/-- Look a pointer up in the heap. -/
def hlookup : Heap → Nat → Option Reactable
  | [], _ => none
  | (k, v) :: t, p => if k = p then some v else hlookup t p

/-- Overwrite the record a pointer maps to. -/
def hupdate : Heap → Nat → Reactable → Heap
  | [], _, _ => []
  | kv :: t, p, v => if kv.1 = p then (p, v) :: hupdate t p v else kv :: hupdate t p v

/-- Free a pointer (`delete reactable`). -/
def hremove : Heap → Nat → Heap
  | [], _ => []
  | kv :: t, p => if kv.1 = p then hremove t p else kv :: hremove t p

/-- State of one `Reactor`: live reactables and an allocator counter, the
kernel epoll interest table, the invalidation list, the atomic
`is_running_` flag, the control eventfd counter (plain mode, not
semaphore: a read drains the whole counter), the
`executing_reactable_finished_` slot and whether an idle promise is
armed. -/
structure ReactorState where
  heap : Heap
  nextPtr : Nat
  epoll : List EpollEntry
  invalidation_list : List Nat
  is_running : Bool
  control_counter : Nat
  executing_reactable_finished : Option Nat
  idle_promise : Bool
deriving Repr, DecidableEq

/-- A freshly constructed reactor: empty table, control fd registered
with `EPOLLIN` and null user data (reactor.cc lines 103-114). -/
def Reactor.init : ReactorState :=
  { heap := []
    nextPtr := 1
    epoll := [⟨0, EPOLLIN, none⟩]
    invalidation_list := []
    is_running := false
    control_counter := 0
    executing_reactable_finished := none
    idle_promise := false }

/-! ## Register (`Reactor::Register`, reactor.cc lines 216-233) -/

/-- Event mask computed by `Register`: `EPOLLIN | EPOLLRDHUP` when a read
callback is present, `EPOLLOUT` when a write callback is present. -/
def registerPollEventType (on_read_ready on_write_ready : Closure) : Nat :=
  (if on_read_ready.isSome then EPOLLIN ||| EPOLLRDHUP else 0) |||
    (if on_write_ready.isSome then EPOLLOUT else 0)

/-- `Reactor::Register`: allocates a reactable, adds the fd to the epoll
table with the computed mask and the reactable pointer as user data, and
returns the pointer. -/
def Register (s : ReactorState) (fd : Nat) (on_read_ready on_write_ready : Closure) :
    ReactorState × Nat :=
  let poll_event_type := registerPollEventType on_read_ready on_write_ready
  let ptr := s.nextPtr
  let reactable : Reactable :=
    { fd := fd
      on_read_ready := on_read_ready
      on_write_ready := on_write_ready
      is_executing := false
      removed := false
      finished_promise := false }
  ({ s with
      heap := (ptr, reactable) :: s.heap
      nextPtr := ptr + 1
      epoll := ⟨fd, poll_event_type, some ptr⟩ :: s.epoll }, ptr)

/-! ## ModifyRegistration (`Reactor::ModifyRegistration`, reactor.cc lines 294-311) -/

/-- The `ReactOn` directions of `Reactor::ModifyRegistration`. -/
inductive ReactOn where
  | REACT_ON_READ_ONLY
  | REACT_ON_WRITE_ONLY
  | REACT_ON_READ_WRITE
deriving Repr, DecidableEq

/-- Event mask computed by `ModifyRegistration` for a direction. -/
def modifyPollEventType (react_on : ReactOn) : Nat :=
  (if react_on = ReactOn.REACT_ON_READ_ONLY ∨ react_on = ReactOn.REACT_ON_READ_WRITE
    then EPOLLIN ||| EPOLLRDHUP else 0) |||
    (if react_on = ReactOn.REACT_ON_WRITE_ONLY ∨ react_on = ReactOn.REACT_ON_READ_WRITE
      then EPOLLOUT else 0)

/-- `Reactor::ModifyRegistration`: `epoll_ctl(MOD)` on the reactable's fd
with the new mask, user data still the reactable pointer.  The reactable
record itself is untouched. -/
def ModifyRegistration (s : ReactorState) (ptr : Nat) (react_on : ReactOn) : ReactorState :=
  match hlookup s.heap ptr with
  | none => s
  | some r =>
    { s with
        epoll := s.epoll.map fun e =>
          if e.fd = r.fd then ⟨e.fd, modifyPollEventType react_on, some ptr⟩ else e }

/-! ## Stop (`Reactor::Stop`, reactor.cc lines 204-210)

`Stop` performs `eventfd_write(control_fd_, kStopReactor)`.  The control
fd is a plain (non-semaphore) eventfd, so the write ADDS `kStopReactor`
to the kernel counter; the warning log when not running has no state
effect. -/

/-- `Reactor::Stop`: add the stop bit onto the control channel counter. -/
def Stop (s : ReactorState) : ReactorState :=
  { s with control_counter := s.control_counter + kStopReactor }

/-- `Reactor::WaitForIdle`'s control write: add `kWaitForIdle` onto the
control counter (reactor.cc line 287); the promise arming is kept in
`idle_promise`. -/
def waitForIdleWrite (s : ReactorState) : ReactorState :=
  { s with idle_promise := true, control_counter := s.control_counter + kWaitForIdle }

/-! ## Unregister (`Reactor::Unregister`, reactor.cc lines 235-265) -/

/-- `Reactor::Unregister`: append the pointer to the invalidation list,
delete the fd from the epoll table (ENOENT tolerated), then under the
reactable's lock decide between immediate destruction (`is_executing`
false: delete now, second component true) and deferred destruction
(`is_executing` true: set `removed`, allocate the finished promise,
store its future into the reactor's `executing_reactable_finished_`
slot, and return without deleting, second component false). -/
def Unregister (s : ReactorState) (ptr : Nat) : ReactorState × Bool :=
  let s1 := { s with invalidation_list := s.invalidation_list ++ [ptr] }
  match hlookup s1.heap ptr with
  | none => (s1, false)
  | some r =>
    let s2 := { s1 with epoll := s1.epoll.filter fun e => e.fd ≠ r.fd }
    if r.is_executing then
      ({ s2 with
          heap := hupdate s2.heap ptr { r with removed := true, finished_promise := true }
          executing_reactable_finished := some ptr }, false)
    else
      ({ s2 with heap := hremove s2.heap ptr }, true)

/-! ## WaitForUnregisteredReactable (reactor.cc lines 267-277) -/

/-- `Reactor::WaitForUnregisteredReactable`: returns true immediately
when the `executing_reactable_finished_` slot is empty; otherwise waits
on the stored future for at most the supplied timeout.  The wait outcome
within the timeout is supplied as the oracle `fulfilledWithin` (true iff
`wait_for(timeout)` returned `ready`).  Result: the returned boolean and
whether a timeout error was logged. -/
def WaitForUnregisteredReactable (s : ReactorState) (fulfilledWithin : Bool) : Bool × Bool :=
  match s.executing_reactable_finished with
  | none => (true, false)
  | some _ => (fulfilledWithin, !fulfilledWithin)

/-! ## The dispatch loop (`Reactor::Run`, reactor.cc lines 128-202) -/

/-- Entry of `Reactor::Run`: `is_running_.exchange(true)` followed by
`ASSERT(!already_running)`.  Aborts (returns `none`) iff the flag was
already set; otherwise returns the state with the flag set. -/
def runEntry (s : ReactorState) : Option ReactorState :=
  let already_running := s.is_running
  let s1 := { s with is_running := true }
  if already_running then none else some s1

/-- Top of each dispatch pass (reactor.cc lines 135-138): clear the
invalidation list under the table lock. -/
def passTop (s : ReactorState) : ReactorState :=
  { s with invalidation_list := [] }

/-- The post-callback block of the dispatch loop (reactor.cc lines
191-199): under the reactable's lock set `is_executing` false; if
`removed` was set, fulfill the finished promise and then delete the
reactable.  Returns the new state, whether the promise was fulfilled,
and whether the reactable was destroyed. -/
def finishCallback (s : ReactorState) (ptr : Nat) : ReactorState × Bool × Bool :=
  match hlookup s.heap ptr with
  | none => (s, false, false)
  | some r =>
    if r.removed then
      ({ s with heap := hremove s.heap ptr }, r.finished_promise, true)
    else
      ({ s with heap := hupdate s.heap ptr { r with is_executing := false } }, false, false)

/-- Local state of `Run`: the reactor plus the loop locals `timeout_ms`
(-1 means infinite) and `waiting_for_idle`. -/
structure RunState where
  reactor : ReactorState
  timeout_ms : Int
  waiting_for_idle : Bool
deriving Repr, DecidableEq

/-- One event of a batch returned by `epoll_wait`: the triggered event
mask and the user-data pointer. -/
structure BatchEvent where
  events : Nat
  dataPtr : Option Nat
deriving Repr, DecidableEq

/-- What the dispatch loop does on one reactable, or logs: recorded in a
trace. -/
inductive TraceItem where
  | invokedRead : Nat → TraceItem
  | invokedWrite : Nat → TraceItem
  | logUnknownControl : Nat → TraceItem
deriving Repr, DecidableEq

/-- Result of handling one batch event: the new run state, the trace of
invocations and logs, and whether `Run` returned. -/
structure StepOut where
  rs : RunState
  trace : List TraceItem
  returned : Bool
deriving Repr, DecidableEq

/-- Handling of one batch event (reactor.cc lines 152-199).  A null
user-data pointer means the control fd triggered: the control counter is
drained by one `eventfd_read` and interpreted — stop bit set: clear
`is_running_` and return from `Run`; else wait-for-idle bit set: arm the
30 ms timeout and the waiting flag; else: log the unknown value.
Otherwise the pointer is a reactable: the `executing_reactable_finished_`
slot is cleared, the invalidation list is consulted (hit: skip), then
`is_executing` is set, the read callback runs when any of
`EPOLLIN | EPOLLHUP | EPOLLRDHUP | EPOLLERR` triggered and it is
non-null, the write callback runs when `EPOLLOUT` triggered and it is
non-null, and the post-callback block runs. -/
def handleEvent (rs : RunState) (ev : BatchEvent) : StepOut :=
  match ev.dataPtr with
  | none =>
    let value := rs.reactor.control_counter
    let s1 := { rs.reactor with control_counter := 0 }
    if value &&& kStopReactor ≠ 0 then
      ⟨{ rs with reactor := { s1 with is_running := false } }, [], true⟩
    else if value &&& kWaitForIdle ≠ 0 then
      ⟨{ reactor := s1, timeout_ms := 30, waiting_for_idle := true }, [], false⟩
    else
      ⟨{ rs with reactor := s1 }, [TraceItem.logUnknownControl value], false⟩
  | some ptr =>
    let s1 := { rs.reactor with executing_reactable_finished := none }
    if ptr ∈ s1.invalidation_list then
      ⟨{ rs with reactor := s1 }, [], false⟩
    else
      match hlookup s1.heap ptr with
      | none => ⟨{ rs with reactor := s1 }, [], false⟩
      | some r =>
        let s2 := { s1 with heap := hupdate s1.heap ptr { r with is_executing := true } }
        let readTrace :=
          if ev.events &&& (EPOLLIN ||| EPOLLHUP ||| EPOLLRDHUP ||| EPOLLERR) ≠ 0 ∧
              r.on_read_ready.isSome then
            [TraceItem.invokedRead ptr]
          else []
        let writeTrace :=
          if ev.events &&& EPOLLOUT ≠ 0 ∧ r.on_write_ready.isSome then
            [TraceItem.invokedWrite ptr]
          else []
        let fin := finishCallback s2 ptr
        ⟨{ rs with reactor := fin.1 }, readTrace ++ writeTrace, false⟩

/-- Processing of one batch of events (the `for` loop over `events[i]`,
reactor.cc lines 152-200), stopping early when the stop command makes
`Run` return. -/
def processBatch (rs : RunState) : List BatchEvent → RunState × List TraceItem × Bool
  | [] => (rs, [], false)
  | ev :: rest =>
    let out := handleEvent rs ev
    if out.returned then (out.rs, out.trace, true)
    else
      let tail := processBatch out.rs rest
      (tail.1, out.trace ++ tail.2.1, tail.2.2)

/-! ## Helper lemmas -/

theorem hlookup_hupdate (h : Heap) (p : Nat) (v : Reactable) :
    hlookup (hupdate h p v) p = (hlookup h p).map fun _ => v := by
  induction h with
  | nil => rfl
  | cons kv t ih =>
    by_cases hk : kv.1 = p
    · simp [hupdate, hlookup, hk]
    · simp [hupdate, hlookup, hk, ih]

theorem hlookup_hremove (h : Heap) (p : Nat) :
    hlookup (hremove h p) p = none := by
  induction h with
  | nil => rfl
  | cons kv t ih =>
    by_cases hk : kv.1 = p
    · simp [hremove, hk, ih]
    · simp [hremove, hlookup, hk, ih]

theorem clear_eq_zero (e : EventFd) : EventFd.Clear e = ⟨0⟩ := by
  obtain ⟨n⟩ := e
  simp only [EventFd.Clear, EventFd.mk.injEq]
  induction n with
  | zero => rfl
  | succ k ih => simpa [EventFd.clearLoop] using ih

/-! ## Claim theorems -/

/-- C6: `Event::Read` returns true and decrements the semaphore counter
by one when the counter is positive, and returns false (leaving the
state unchanged) when it is zero; after any sequence of N `Notify` calls
followed by `Clear`, every subsequent `Read` returns false — the state
is unchanged by such a read, so all later reads fail too — until the
next `Notify`, after which a read succeeds again. -/
theorem event_read_notify_clear (e : EventFd) (n : Nat) :
    (0 < e.counter → EventFd.Read e = (true, ⟨e.counter - 1⟩)) ∧
    (e.counter = 0 → EventFd.Read e = (false, e)) ∧
    EventFd.Read (EventFd.Clear (EventFd.notifyN n e)) =
      (false, EventFd.Clear (EventFd.notifyN n e)) ∧
    EventFd.Read (EventFd.Notify (EventFd.Clear (EventFd.notifyN n e))) = (true, ⟨0⟩) := by
  refine ⟨fun h1 => ?_, fun h2 => ?_, ?_, ?_⟩
  · simp [EventFd.Read, h1]
  · simp [EventFd.Read, h2]
  · simp [clear_eq_zero, EventFd.Read]
  · simp [clear_eq_zero, EventFd.Read, EventFd.Notify]

/-- Witness for C6 at a concrete counter value. -/
theorem event_read_notify_clear_witness :
    EventFd.Read ⟨2⟩ = (true, ⟨1⟩) :=
  (event_read_notify_clear ⟨2⟩ 3).1 (by decide)

/-- C5: `WaitForUnregisteredReactable` returns true immediately when the
executing-finished slot is empty; otherwise it returns true exactly when
the completion future was fulfilled within the supplied timeout, and it
logs a timeout error exactly when the slot is occupied and the future
was not fulfilled in time; in no case does it abort. -/
theorem waitForUnregisteredReactable_spec (s : ReactorState) (fulfilledWithin : Bool) :
    ((WaitForUnregisteredReactable s fulfilledWithin).1 = true ↔
      (s.executing_reactable_finished = none ∨ fulfilledWithin = true)) ∧
    ((WaitForUnregisteredReactable s fulfilledWithin).2 = true ↔
      (s.executing_reactable_finished ≠ none ∧ fulfilledWithin = false)) := by
  cases hs : s.executing_reactable_finished with
  | none => simp [WaitForUnregisteredReactable, hs]
  | some p => cases fulfilledWithin <;> simp [WaitForUnregisteredReactable, hs]

/-- C7: `Register(fd, on_read, on_write)` pushes exactly one new epoll
entry for `fd` whose mask has the read bit (bit 0, `EPOLLIN`) and the
remote-hang-up bit (bit 13, `EPOLLRDHUP`) set iff the read callback is
present and the write bit (bit 2, `EPOLLOUT`) set iff the write callback
is present, with the freshly allocated reactable pointer as user data;
the returned handle looks up to that reactable, which carries the two
supplied callbacks. -/
theorem register_spec (s : ReactorState) (fd : Nat) (on_read_ready on_write_ready : Closure) :
    (Register s fd on_read_ready on_write_ready).1.epoll =
      ⟨fd, registerPollEventType on_read_ready on_write_ready,
        some (Register s fd on_read_ready on_write_ready).2⟩ :: s.epoll ∧
    (registerPollEventType on_read_ready on_write_ready).testBit 0 = on_read_ready.isSome ∧
    (registerPollEventType on_read_ready on_write_ready).testBit 13 = on_read_ready.isSome ∧
    (registerPollEventType on_read_ready on_write_ready).testBit 2 = on_write_ready.isSome ∧
    hlookup (Register s fd on_read_ready on_write_ready).1.heap
        (Register s fd on_read_ready on_write_ready).2 =
      some ⟨fd, on_read_ready, on_write_ready, false, false, false⟩ := by
  refine ⟨rfl, ?_, ?_, ?_, ?_⟩
  · cases on_read_ready <;> cases on_write_ready <;>
      simp only [registerPollEventType, Option.isSome_some, Option.isSome_none,
        if_true, if_false] <;> decide
  · cases on_read_ready <;> cases on_write_ready <;>
      simp only [registerPollEventType, Option.isSome_some, Option.isSome_none,
        if_true, if_false] <;> decide
  · cases on_read_ready <;> cases on_write_ready <;>
      simp only [registerPollEventType, Option.isSome_some, Option.isSome_none,
        if_true, if_false] <;> decide
  · simp [Register, hlookup]

/-- C8: for a registered reactable and any direction,
`ModifyRegistration` leaves the heap — hence the reactable's callbacks,
watched handle and flags — completely unchanged, keeps the user-data
pointer of the modified epoll entry equal to the reactable pointer,
leaves entries for other fds untouched, and the new mask has the read
bit (0) and remote-hang-up bit (13) set exactly for the read-only and
read+write directions and the write bit (2) set exactly for the
write-only and read+write directions. -/
theorem modifyRegistration_spec (s : ReactorState) (ptr : Nat) (r : Reactable)
    (react_on : ReactOn) (h : hlookup s.heap ptr = some r) :
    (ModifyRegistration s ptr react_on).heap = s.heap ∧
    hlookup (ModifyRegistration s ptr react_on).heap ptr = some r ∧
    (∀ e ∈ s.epoll, e.fd ≠ r.fd → e ∈ (ModifyRegistration s ptr react_on).epoll) ∧
    (∀ e ∈ s.epoll, e.fd = r.fd →
      (⟨e.fd, modifyPollEventType react_on, some ptr⟩ : EpollEntry) ∈
        (ModifyRegistration s ptr react_on).epoll) ∧
    ((modifyPollEventType react_on).testBit 0 = true ↔
      (react_on = ReactOn.REACT_ON_READ_ONLY ∨ react_on = ReactOn.REACT_ON_READ_WRITE)) ∧
    ((modifyPollEventType react_on).testBit 13 = true ↔
      (react_on = ReactOn.REACT_ON_READ_ONLY ∨ react_on = ReactOn.REACT_ON_READ_WRITE)) ∧
    ((modifyPollEventType react_on).testBit 2 = true ↔
      (react_on = ReactOn.REACT_ON_WRITE_ONLY ∨ react_on = ReactOn.REACT_ON_READ_WRITE)) := by
  refine ⟨?_, ?_, ?_, ?_, ?_, ?_, ?_⟩
  · simp [ModifyRegistration, h]
  · simp [ModifyRegistration, h]
  · intro e he hne
    simp only [ModifyRegistration, h]
    exact List.mem_map.mpr ⟨e, he, by simp [hne]⟩
  · intro e he hfd
    simp only [ModifyRegistration, h]
    exact List.mem_map.mpr ⟨e, he, by simp [hfd]⟩
  · cases react_on <;> decide
  · cases react_on <;> decide
  · cases react_on <;> decide

/-- Witness for C8: modifying a concrete one-reactable registration to
write-only leaves the heap unchanged. -/
theorem modifyRegistration_spec_witness :
    (ModifyRegistration
        ⟨[(5, ⟨3, some 1, some 2, false, false, false⟩)], 6, [⟨3, 0x2001, some 5⟩],
          [], false, 0, none, false⟩ 5 ReactOn.REACT_ON_WRITE_ONLY).heap =
      [(5, ⟨3, some 1, some 2, false, false, false⟩)] :=
  (modifyRegistration_spec
    ⟨[(5, ⟨3, some 1, some 2, false, false, false⟩)], 6, [⟨3, 0x2001, some 5⟩],
      [], false, 0, none, false⟩ 5 ⟨3, some 1, some 2, false, false, false⟩
    ReactOn.REACT_ON_WRITE_ONLY (by decide)).1

/-- C3: `Unregister` decides on `is_executing`: when it is false the
reactable is destroyed before `Unregister` returns (and the later
post-callback block destroys nothing); when it is true `Unregister`
returns without destroying, having set `removed`, allocated the
completion promise and stored its observer in the reactor's
executing-finished slot, and the dispatch loop's post-callback block
then fulfills the promise and destroys the reactable.  In both branches
the total number of destructions is exactly one. -/
theorem unregister_protocol (s : ReactorState) (ptr : Nat) (r : Reactable)
    (h : hlookup s.heap ptr = some r) :
    (r.is_executing = false →
      (Unregister s ptr).2 = true ∧
      hlookup (Unregister s ptr).1.heap ptr = none ∧
      (finishCallback (Unregister s ptr).1 ptr).2.2 = false) ∧
    (r.is_executing = true →
      (Unregister s ptr).2 = false ∧
      hlookup (Unregister s ptr).1.heap ptr =
        some { r with removed := true, finished_promise := true } ∧
      (Unregister s ptr).1.executing_reactable_finished = some ptr ∧
      (finishCallback (Unregister s ptr).1 ptr).2.1 = true ∧
      (finishCallback (Unregister s ptr).1 ptr).2.2 = true ∧
      hlookup (finishCallback (Unregister s ptr).1 ptr).1.heap ptr = none) ∧
    (Unregister s ptr).2.toNat + (finishCallback (Unregister s ptr).1 ptr).2.2.toNat = 1 := by
  refine ⟨fun hr => ?_, fun hr => ?_, ?_⟩
  · refine ⟨?_, ?_, ?_⟩ <;>
      simp [Unregister, h, hr, finishCallback, hlookup_hremove]
  · refine ⟨?_, ?_, ?_, ?_, ?_, ?_⟩ <;>
      simp [Unregister, h, hr, finishCallback, hlookup_hupdate, hlookup_hremove]
  · by_cases hr : r.is_executing <;>
      simp [Unregister, h, hr, finishCallback, hlookup_hupdate, hlookup_hremove]

/-- Witness for C3: unregistering a concrete reactable whose callback is
in flight defers destruction and stores the observer in the slot. -/
theorem unregister_protocol_witness :
    (Unregister ⟨[(5, ⟨3, some 1, none, true, false, false⟩)], 6, [⟨3, 0x2001, some 5⟩],
        [], true, 0, none, false⟩ 5).2 = false ∧
    (Unregister ⟨[(5, ⟨3, some 1, none, true, false, false⟩)], 6, [⟨3, 0x2001, some 5⟩],
        [], true, 0, none, false⟩ 5).1.executing_reactable_finished = some 5 := by
  have h := unregister_protocol
    ⟨[(5, ⟨3, some 1, none, true, false, false⟩)], 6, [⟨3, 0x2001, some 5⟩],
      [], true, 0, none, false⟩ 5 ⟨3, some 1, none, true, false, false⟩ (by decide)
  exact ⟨(h.2.1 rfl).1, (h.2.1 rfl).2.2.1⟩

theorem finishCallback_invalidation (s : ReactorState) (p : Nat) :
    (finishCallback s p).1.invalidation_list = s.invalidation_list := by
  rcases hl : hlookup s.heap p with _ | r
  · simp [finishCallback, hl]
  · by_cases hr : r.removed <;> simp [finishCallback, hl, hr]

theorem handleEvent_invalidation (rs : RunState) (ev : BatchEvent) :
    (handleEvent rs ev).rs.reactor.invalidation_list = rs.reactor.invalidation_list := by
  rcases hev : ev.dataPtr with _ | p
  · by_cases h1 : rs.reactor.control_counter &&& kStopReactor ≠ 0
    · simp [handleEvent, hev, h1]
    · by_cases h2 : rs.reactor.control_counter &&& kWaitForIdle ≠ 0 <;>
        simp [handleEvent, hev, h1, h2]
  · by_cases hin : p ∈ rs.reactor.invalidation_list
    · simp [handleEvent, hev, hin]
    · rcases hl : hlookup rs.reactor.heap p with _ | r
      · simp [handleEvent, hev, hin, hl]
      · simp [handleEvent, hev, hin, hl, finishCallback_invalidation]

theorem handleEvent_no_invoke_of_invalidated (rs : RunState) (ev : BatchEvent) (p : Nat)
    (h : p ∈ rs.reactor.invalidation_list) :
    TraceItem.invokedRead p ∉ (handleEvent rs ev).trace ∧
    TraceItem.invokedWrite p ∉ (handleEvent rs ev).trace := by
  rcases hev : ev.dataPtr with _ | q
  · by_cases h1 : rs.reactor.control_counter &&& kStopReactor ≠ 0
    · simp [handleEvent, hev, h1]
    · by_cases h2 : rs.reactor.control_counter &&& kWaitForIdle ≠ 0 <;>
        simp [handleEvent, hev, h1, h2]
  · by_cases hin : q ∈ rs.reactor.invalidation_list
    · simp [handleEvent, hev, hin]
    · have hpq : p ≠ q := fun hpq => hin (hpq ▸ h)
      rcases hl : hlookup rs.reactor.heap q with _ | r
      · simp [handleEvent, hev, hin, hl]
      · constructor <;>
          · simp only [handleEvent, hev, hin, hl]
            intro hmem
            rcases List.mem_append.mp hmem with hm | hm <;>
              · split at hm <;> simp_all

theorem unregister_mem_invalidation (s : ReactorState) (q : Nat) :
    q ∈ (Unregister s q).1.invalidation_list := by
  rcases hl : hlookup s.heap q with _ | r
  · simp [Unregister, hl]
  · by_cases hr : r.is_executing <;> simp [Unregister, hl, hr]

theorem processBatch_no_invoke_of_invalidated (p : Nat) (evs : List BatchEvent) :
    ∀ rs : RunState, p ∈ rs.reactor.invalidation_list →
      TraceItem.invokedRead p ∉ (processBatch rs evs).2.1 ∧
      TraceItem.invokedWrite p ∉ (processBatch rs evs).2.1 := by
  induction evs with
  | nil => intro rs _; simp [processBatch]
  | cons ev rest ih =>
    intro rs h
    have hstep := handleEvent_no_invoke_of_invalidated rs ev p h
    have hinv : p ∈ (handleEvent rs ev).rs.reactor.invalidation_list := by
      rw [handleEvent_invalidation]; exact h
    have htail := ih (handleEvent rs ev).rs hinv
    by_cases hret : (handleEvent rs ev).returned = true
    · simp only [processBatch, hret, if_true]
      exact hstep
    · simp only [processBatch, hret, if_false]
      refine ⟨fun hmem => ?_, fun hmem => ?_⟩
      · rcases List.mem_append.mp hmem with hm | hm
        · exact hstep.1 hm
        · exact htail.1 hm
      · rcases List.mem_append.mp hmem with hm | hm
        · exact hstep.2 hm
        · exact htail.2 hm

/-- C2: `Unregister(R)` puts R on the invalidation list before
returning, and within the dispatch pass every remaining batch event
whose user data is an invalidated reactable is skipped: no read or
write callback of that reactable is invoked anywhere in the rest of the
batch, so no callback of R runs after `Unregister(R)` returned (and,
for deferred destruction, none after the in-flight callback finished). -/
theorem unregistered_reactable_skipped (rs : RunState) (p : Nat) (evs : List BatchEvent)
    (h : p ∈ rs.reactor.invalidation_list) :
    (∀ s : ReactorState, p ∈ (Unregister s p).1.invalidation_list) ∧
    TraceItem.invokedRead p ∉ (processBatch rs evs).2.1 ∧
    TraceItem.invokedWrite p ∉ (processBatch rs evs).2.1 :=
  ⟨fun s => unregister_mem_invalidation s p,
    processBatch_no_invoke_of_invalidated p evs rs h⟩

/-- Witness for C2: a concrete batch event carrying an invalidated
reactable pointer produces no read callback invocation. -/
theorem unregistered_reactable_skipped_witness :
    TraceItem.invokedRead 5 ∉
      (processBatch
        ⟨⟨[(5, ⟨3, some 1, none, false, false, false⟩)], 6, [⟨3, 0x2001, some 5⟩],
          [5], true, 0, none, false⟩, -1, false⟩
        [⟨1, some 5⟩]).2.1 :=
  (unregistered_reactable_skipped
    ⟨⟨[(5, ⟨3, some 1, none, false, false, false⟩)], 6, [⟨3, 0x2001, some 5⟩],
      [5], true, 0, none, false⟩, -1, false⟩ 5 [⟨1, some 5⟩] (by decide)).2.1

/-- C10: when a single batch event signals both a read-side condition
(read readiness, hang-up, remote hang-up or error) and write readiness
for a reactable that has both callbacks, the dispatch loop invokes the
read callback strictly before the write callback. -/
theorem read_invoked_before_write (rs : RunState) (ptr : Nat) (r : Reactable)
    (ev : BatchEvent)
    (h1 : ev.dataPtr = some ptr)
    (h2 : ptr ∉ rs.reactor.invalidation_list)
    (h3 : hlookup rs.reactor.heap ptr = some r)
    (h4 : r.on_read_ready.isSome = true)
    (h5 : r.on_write_ready.isSome = true)
    (h6 : ev.events &&& (EPOLLIN ||| EPOLLHUP ||| EPOLLRDHUP ||| EPOLLERR) ≠ 0)
    (h7 : ev.events &&& EPOLLOUT ≠ 0) :
    (handleEvent rs ev).trace = [TraceItem.invokedRead ptr, TraceItem.invokedWrite ptr] := by
  simp [handleEvent, h1, h2, h3, h4, h5, h6, h7]

/-- Witness for C10 at a concrete event signalling both directions. -/
theorem read_invoked_before_write_witness :
    (handleEvent
        ⟨⟨[(5, ⟨3, some 1, some 2, false, false, false⟩)], 6, [⟨3, 0x2005, some 5⟩],
          [], true, 0, none, false⟩, -1, false⟩
        ⟨5, some 5⟩).trace =
      [TraceItem.invokedRead 5, TraceItem.invokedWrite 5] :=
  read_invoked_before_write
    ⟨⟨[(5, ⟨3, some 1, some 2, false, false, false⟩)], 6, [⟨3, 0x2005, some 5⟩],
      [], true, 0, none, false⟩, -1, false⟩ 5 ⟨3, some 1, some 2, false, false, false⟩
    ⟨5, some 5⟩ rfl (by decide) (by decide) rfl rfl (by decide) (by decide)

/-- C9: `Run`'s entry aborts exactly when the running flag was already
set and otherwise sets it; the STOP path of the control handler clears
the flag before returning, so after a stop-induced return a new `Run`
entry succeeds instead of hitting the already-running assertion. -/
theorem running_flag_lifecycle (s : ReactorState) (rs : RunState) (ev : BatchEvent) :
    (runEntry s = none ↔ s.is_running = true) ∧
    (∀ s1, runEntry s = some s1 → s1.is_running = true) ∧
    (ev.dataPtr = none → (handleEvent rs ev).returned = true →
      (handleEvent rs ev).rs.reactor.is_running = false ∧
      ∃ s2, runEntry (handleEvent rs ev).rs.reactor = some s2 ∧ s2.is_running = true) := by
  have hgen : ∀ t : ReactorState, t.is_running = false →
      ∃ s2, runEntry t = some s2 ∧ s2.is_running = true := fun t ht =>
    ⟨{ t with is_running := true }, by simp [runEntry, ht], rfl⟩
  refine ⟨?_, ?_, fun hev hret => ?_⟩
  · by_cases h : s.is_running <;> simp [runEntry, h]
  · intro s1 h1
    by_cases h : s.is_running <;> simp [runEntry, h] at h1
    rw [← h1]
  · have hfalse : (handleEvent rs ev).rs.reactor.is_running = false := by
      by_cases h1 : rs.reactor.control_counter &&& kStopReactor ≠ 0
      · simp [handleEvent, hev, h1]
      · by_cases h2 : rs.reactor.control_counter &&& kWaitForIdle ≠ 0 <;>
          simp [handleEvent, hev, h1, h2] at hret
    exact ⟨hfalse, hgen _ hfalse⟩

/-- Witness for C9: a concrete stop command clears the running flag. -/
theorem running_flag_lifecycle_witness :
    (handleEvent ⟨⟨[], 1, [⟨0, EPOLLIN, none⟩], [], true, 1, none, false⟩, -1, false⟩
        ⟨EPOLLIN, none⟩).rs.reactor.is_running = false :=
  ((running_flag_lifecycle ⟨[], 1, [⟨0, EPOLLIN, none⟩], [], true, 1, none, false⟩
      ⟨⟨[], 1, [⟨0, EPOLLIN, none⟩], [], true, 1, none, false⟩, -1, false⟩
      ⟨EPOLLIN, none⟩).2.2 rfl (by decide)).1

/-- C4 (amended): the control handler is a prioritized if-else chain,
not an independent bitmask dispatch: the STOP action is performed iff
the STOP bit of the value is set; the WAIT_FOR_IDLE action is performed
iff its bit is set AND the STOP bit is clear; the value is logged as
unknown iff neither known bit is set, so unknown bits accompanying a
known bit are silently dropped. -/
theorem control_value_interpretation (rs : RunState) (ev : BatchEvent)
    (hev : ev.dataPtr = none) (hw : rs.waiting_for_idle = false)
    (ht : rs.timeout_ms = -1) :
    ((handleEvent rs ev).returned = true ↔
      rs.reactor.control_counter &&& kStopReactor ≠ 0) ∧
    ((handleEvent rs ev).returned = true →
      (handleEvent rs ev).rs.reactor.is_running = false) ∧
    (((handleEvent rs ev).rs.waiting_for_idle = true ∧
        (handleEvent rs ev).rs.timeout_ms = 30) ↔
      (rs.reactor.control_counter &&& kStopReactor = 0 ∧
        rs.reactor.control_counter &&& kWaitForIdle ≠ 0)) ∧
    ((handleEvent rs ev).trace =
        [TraceItem.logUnknownControl rs.reactor.control_counter] ↔
      (rs.reactor.control_counter &&& kStopReactor = 0 ∧
        rs.reactor.control_counter &&& kWaitForIdle = 0)) := by
  by_cases h1 : rs.reactor.control_counter &&& kStopReactor ≠ 0
  · refine ⟨?_, ?_, ?_, ?_⟩ <;> simp [handleEvent, hev, h1, hw, ht]
  · by_cases h2 : rs.reactor.control_counter &&& kWaitForIdle ≠ 0 <;>
      · refine ⟨?_, ?_, ?_, ?_⟩ <;> simp_all [handleEvent, hev, h1, hw, ht]

/-- Witness for C4 (amended) at control value 2: only the wait-for-idle
action fires. -/
theorem control_value_interpretation_witness :
    (handleEvent ⟨⟨[], 1, [⟨0, EPOLLIN, none⟩], [], true, 2, none, false⟩, -1, false⟩
        ⟨EPOLLIN, none⟩).rs.waiting_for_idle = true ∧
    (handleEvent ⟨⟨[], 1, [⟨0, EPOLLIN, none⟩], [], true, 2, none, false⟩, -1, false⟩
        ⟨EPOLLIN, none⟩).rs.timeout_ms = 30 :=
  ((control_value_interpretation
      ⟨⟨[], 1, [⟨0, EPOLLIN, none⟩], [], true, 2, none, false⟩, -1, false⟩
      ⟨EPOLLIN, none⟩ rfl rfl rfl).2.2.1.mpr (by decide))

/-- C4 counterexample: with both known bits set (control value 3) the
WAIT_FOR_IDLE bit is set yet the wait-for-idle action is not performed —
the STOP branch wins, refuting the claim's independent-bitmask reading. -/
theorem control_value_both_bits :
    (3 : Nat) &&& kWaitForIdle ≠ 0 ∧
    (handleEvent ⟨⟨[], 1, [⟨0, EPOLLIN, none⟩], [], true, 3, none, false⟩, -1, false⟩
        ⟨EPOLLIN, none⟩).rs.waiting_for_idle = false ∧
    (handleEvent ⟨⟨[], 1, [⟨0, EPOLLIN, none⟩], [], true, 3, none, false⟩, -1, false⟩
        ⟨EPOLLIN, none⟩).rs.timeout_ms ≠ 30 := by
  decide

/-- C1 (behavior at the failing input): one `Stop` write makes the next
control read stop the reactor, but two coalesced `Stop` writes leave the
counter at 2, whose read is interpreted as WAIT_FOR_IDLE — `Run` does
not return and the waiting-for-idle mode is armed instead. -/
theorem stop_twice_coalesced_not_stop :
    (handleEvent ⟨Stop ⟨[], 1, [⟨0, EPOLLIN, none⟩], [], true, 0, none, false⟩,
        -1, false⟩ ⟨EPOLLIN, none⟩).returned = true ∧
    (Stop (Stop ⟨[], 1, [⟨0, EPOLLIN, none⟩], [], true, 0, none, false⟩)).control_counter
      = 2 ∧
    (handleEvent ⟨Stop (Stop ⟨[], 1, [⟨0, EPOLLIN, none⟩], [], true, 0, none, false⟩),
        -1, false⟩ ⟨EPOLLIN, none⟩).returned = false ∧
    (handleEvent ⟨Stop (Stop ⟨[], 1, [⟨0, EPOLLIN, none⟩], [], true, 0, none, false⟩),
        -1, false⟩ ⟨EPOLLIN, none⟩).rs.waiting_for_idle = true := by
  decide

end ReactorModel
